import Mathlib

/-!
Verification of the portfolio-sdk chat pipeline.

This file gives a shallow embedding, in Lean 4, of the request-handling
logic of the portfolio-sdk repository (`src/server/uploadToSupermemory.ts`
and its sibling handler files, plus the `AutoChat` client component), and
proves or refutes the specification claims about it.

Modelling conventions:
* JavaScript strings are Lean `String`; `String.prototype.trim` is modelled
  by `jsTrim`, which drops JS whitespace characters from both ends of the
  underlying character list.
* JS truthiness of a string is `s ≠ ""`; optional/undefined values are
  `Option`; the `a || b` idiom on strings is `jsOrStr` / `jsOrOpt`.
* `fetch`/SDK calls that may reject are passed in as `Except JsError α`
  parameters, so a handler body becomes a total function of its inputs and
  the outcomes of its external calls.
* `Response.json(x, {status})` becomes a plain record carrying the status
  and the JSON payload fields.
-/

namespace PortfolioSdk

/-! ### JS string primitives -/

/-- Whitespace characters removed by the JavaScript `trim` (the ASCII ones,
which are the only ones relevant to the strings this codebase handles). -/
def isJsSpace (c : Char) : Bool :=
  c = ' ' || c = '\t' || c = '\n' || c = '\r' || c = '\x0b' || c = '\x0c'

/-- Left part of `trim`: drop leading whitespace. -/
def trimLeftList (l : List Char) : List Char := l.dropWhile isJsSpace

/-- Right part of `trim`: drop trailing whitespace. -/
def trimRightList (l : List Char) : List Char := (l.reverse.dropWhile isJsSpace).reverse

/-- Model of JavaScript `String.prototype.trim`. -/
def jsTrim (s : String) : String := String.mk (trimRightList (trimLeftList s.data))

/-- JS `a || b` for a string `a` that may be absent: an absent or empty
(falsy) `a` yields the default `b`. -/
def jsOrStr (a : Option String) (b : String) : String :=
  match a with
  | some s => if s = "" then b else s
  | none => b

/-- JS `a || b` where both operands may be absent strings. -/
def jsOrOpt (a b : Option String) : Option String :=
  match a with
  | some s => if s = "" then b else some s
  | none => b

/-- JS truthiness of a possibly-absent string. -/
def optTruthy (o : Option String) : Bool :=
  match o with
  | some s => s != ""
  | none => false

/-! ### Trim lemmas -/

theorem dropWhile_dropWhile (p : α → Bool) (l : List α) :
    (l.dropWhile p).dropWhile p = l.dropWhile p := by
  induction l with
  | nil => rfl
  | cons a t ih =>
    by_cases h : p a
    · simp [List.dropWhile, h, ih]
    · simp [List.dropWhile, h]

theorem dropWhile_eq_self_of_head (p : α → Bool) (l : List α)
    (h : ∀ x, l.head? = some x → p x = false) : l.dropWhile p = l := by
  cases l with
  | nil => rfl
  | cons a t => simp [List.dropWhile, h a rfl]

theorem head_of_dropWhile (p : α → Bool) (l : List α) :
    ∀ x, (l.dropWhile p).head? = some x → p x = false := by
  induction l with
  | nil => intro x hx; simp [List.dropWhile] at hx
  | cons a t ih =>
    intro x hx
    by_cases h : p a
    · exact ih x (by simpa [List.dropWhile, h] using hx)
    · simp [List.dropWhile, h] at hx
      simpa [hx] using h

/-- `trimRightList` only removes a suffix, so it is a prefix of its input. -/
theorem trimRightList_append (l : List Char) :
    l = trimRightList l ++ (l.reverse.takeWhile isJsSpace).reverse := by
  unfold trimRightList
  have h := List.takeWhile_append_dropWhile isJsSpace l.reverse
  calc l = l.reverse.reverse := (List.reverse_reverse l).symm
    _ = (l.reverse.takeWhile isJsSpace ++ l.reverse.dropWhile isJsSpace).reverse := by rw [h]
    _ = (l.reverse.dropWhile isJsSpace).reverse ++ (l.reverse.takeWhile isJsSpace).reverse := by
        rw [List.reverse_append]

theorem trimRightList_head (l : List Char) :
    ∀ x, (trimRightList (l.dropWhile isJsSpace)).head? = some x → isJsSpace x = false := by
  intro x hx
  have hpre := trimRightList_append (l.dropWhile isJsSpace)
  cases htr : trimRightList (l.dropWhile isJsSpace) with
  | nil => rw [htr] at hx; exact absurd hx (by simp)
  | cons y ys =>
    rw [htr] at hx
    have hyx : y = x := by simpa using hx
    have hhead : (l.dropWhile isJsSpace).head? = some y := by
      have h2 := congrArg List.head? hpre
      rw [htr] at h2
      simpa using h2
    exact head_of_dropWhile isJsSpace l x (hyx ▸ hhead)

theorem trimLeft_trimRight_trimLeft (l : List Char) :
    trimLeftList (trimRightList (trimLeftList l)) = trimRightList (trimLeftList l) := by
  exact dropWhile_eq_self_of_head isJsSpace _ (trimRightList_head l)

theorem trimRightList_idem (l : List Char) :
    trimRightList (trimRightList l) = trimRightList l := by
  unfold trimRightList
  rw [List.reverse_reverse, dropWhile_dropWhile]

/-- The JS `trim` is idempotent. -/
theorem jsTrim_idem (s : String) : jsTrim (jsTrim s) = jsTrim s := by
  show String.mk (trimRightList (trimLeftList (trimRightList (trimLeftList s.data))))
      = String.mk (trimRightList (trimLeftList s.data))
  exact congrArg String.mk (by rw [trimLeft_trimRight_trimLeft, trimRightList_idem])

/-- An element failing the predicate survives `dropWhile`. -/
theorem mem_dropWhile_of_not (p : α → Bool) (l : List α) (c : α)
    (hc : c ∈ l) (hcp : p c = false) : c ∈ l.dropWhile p := by
  induction l with
  | nil => simp at hc
  | cons a t ih =>
    by_cases hpa : p a
    · rcases List.mem_cons.mp hc with rfl | ht
      · exact absurd hpa (by simp [hcp])
      · simpa [List.dropWhile, hpa] using ih ht
    · simpa [List.dropWhile, hpa] using hc

/-- A string containing a non-whitespace character does not trim to empty. -/
theorem jsTrim_ne_empty (s : String) (c : Char) (hc : c ∈ s.data)
    (hcs : isJsSpace c = false) : jsTrim s ≠ "" := by
  intro h
  have hdata : trimRightList (trimLeftList s.data) = [] := congrArg String.data h
  have h1 : (trimLeftList s.data).reverse.dropWhile isJsSpace = [] := by
    have := congrArg List.reverse hdata
    simpa [trimRightList] using this
  have h2 : ∀ x ∈ trimLeftList s.data, isJsSpace x := by
    intro x hx
    exact List.dropWhile_eq_nil_iff.mp h1 x (List.mem_reverse.mpr hx)
  have hmem : c ∈ trimLeftList s.data :=
    mem_dropWhile_of_not isJsSpace s.data c hc hcs
  have hcontra := h2 c hmem
  simp [hcs] at hcontra

/-! ### String append helpers -/

theorem str_data_append (a b : String) : (a ++ b).data = a.data ++ b.data := by
  cases a; cases b; rfl

theorem str_append_assoc (a b c : String) : a ++ b ++ c = a ++ (b ++ c) :=
  String.append_assoc a b c

theorem str_empty_append (s : String) : "" ++ s = s := by cases s; rfl

theorem str_append_empty (s : String) : s ++ "" = s := by
  cases s with
  | mk l => exact congrArg String.mk (List.append_nil l)

/-! ### AutoChat streaming accumulation (client widget)

From `src/components/AutoChat.tsx`, `sendMessage`: the streaming read loop
keeps a `streamedContent` accumulator, appends each decoded chunk to it,
and after each chunk replaces the in-progress assistant entry with the
accumulated text.  `renderedStates` collects, in order, the content of the
in-progress assistant message after each chunk arrives. -/

def streamReadLoop (streamedContent : String) : List String → List String
  | [] => []
  | chunk :: rest =>
    (streamedContent ++ chunk) :: streamReadLoop (streamedContent ++ chunk) rest

/-- The sequence of rendered states of the in-progress assistant message,
one per received chunk (`streamedContent` starts empty). -/
def renderedStates (chunks : List String) : List String := streamReadLoop "" chunks

/-- Modelled from the spec: the sequence of prefixes obtained by appending
each chunk in arrival order (the i-th entry is the concatenation of the
first i chunks). -/
def specCumulativeStates : List String → List String
  | [] => []
  | c :: rest => c :: (specCumulativeStates rest).map (fun s => c ++ s)

/-- Concatenation of all chunks in arrival order. -/
def concatChunks : List String → String
  | [] => ""
  | c :: rest => c ++ concatChunks rest

theorem streamReadLoop_eq_map (chunks : List String) :
    ∀ acc, streamReadLoop acc chunks = (specCumulativeStates chunks).map (fun s => acc ++ s) := by
  induction chunks with
  | nil => intro acc; rfl
  | cons c rest ih =>
    intro acc
    simp only [streamReadLoop, specCumulativeStates, List.map_cons, List.map_map, ih (acc ++ c)]
    congr 1
    apply List.map_congr_left
    intro s _
    simp [Function.comp, str_append_assoc]

theorem streamReadLoop_getLast (chunks : List String) :
    ∀ acc, chunks ≠ [] →
      (streamReadLoop acc chunks).getLast? = some (acc ++ concatChunks chunks) := by
  induction chunks with
  | nil => intro acc h; exact absurd rfl h
  | cons c rest ih =>
    intro acc _
    cases hr : rest with
    | nil =>
      simp [streamReadLoop, concatChunks, str_append_empty]
    | cons d ds =>
      subst hr
      have hlast := ih (acc ++ c) (by simp)
      have h1 : streamReadLoop acc (c :: d :: ds)
          = (acc ++ c) :: (acc ++ c ++ d) :: streamReadLoop (acc ++ c ++ d) ds := rfl
      have h2 : streamReadLoop (acc ++ c) (d :: ds)
          = (acc ++ c ++ d) :: streamReadLoop (acc ++ c ++ d) ds := rfl
      rw [h1, List.getLast?_cons_cons, ← h2, hlast]
      simp [concatChunks, str_append_assoc]

/-! ### Manual RAG session store (server, `createManualRAGHandler`)

The handler pushes the user turn and the assistant turn onto the session
history, then keeps only the last 20 entries (`sessionHistory.slice(-20)`
when the length exceeds 20) before storing it back. -/

structure ChatMessage where
  role : String
  content : String
  timestamp : Nat
  deriving DecidableEq

/-- The truncation step `if (sessionHistory.length > 20) sessionHistory =
sessionHistory.slice(-20)`: keep the 20 most recent entries. -/
def sessionTruncate (h : List ChatMessage) : List ChatMessage :=
  if h.length > 20 then h.drop (h.length - 20) else h

/-- One request's update of a session's stored history: push the user
turn and the assistant turn, then truncate to the 20 most recent entries. -/
def sessionAfterRequest (sessionHistory : List ChatMessage)
    (message answer : String) (t1 t2 : Nat) : List ChatMessage :=
  sessionTruncate (sessionHistory ++ [⟨"user", message, t1⟩, ⟨"assistant", answer, t2⟩])

/-- One chat exchange: the user message, the assistant answer, and the two
timestamps recorded when they are pushed. -/
structure Exchange where
  message : String
  answer : String
  t1 : Nat
  t2 : Nat
  deriving DecidableEq

/-- The stored session history after a sequence of requests, starting from
the empty history of a fresh session. -/
def runManualSession (reqs : List Exchange) : List ChatMessage :=
  reqs.foldl (fun acc r => sessionAfterRequest acc r.message r.answer r.t1 r.t2) []

/-- All turns appended across a sequence of requests, in chronological
order (each request contributes its user turn then its assistant turn). -/
def sessionTurns : List Exchange → List ChatMessage
  | [] => []
  | r :: rest =>
    ⟨"user", r.message, r.t1⟩ :: ⟨"assistant", r.answer, r.t2⟩ :: sessionTurns rest

/-- The `n` most recent elements of a list, in order. -/
def takeLast (n : Nat) (l : List α) : List α := l.drop (l.length - n)

theorem takeLast_eq_reverse_take (n : Nat) (l : List α) :
    takeLast n l = (l.reverse.take n).reverse := by
  unfold takeLast
  rw [List.reverse_take]
  simp

theorem takeLast_length_le (n : Nat) (l : List α) : (takeLast n l).length ≤ n := by
  rw [takeLast_eq_reverse_take]
  simp [List.length_take_le n l.reverse]

theorem takeLast_of_length_le (n : Nat) (l : List α) (h : l.length ≤ n) :
    takeLast n l = l := by
  unfold takeLast
  rw [Nat.sub_eq_zero_of_le h, List.drop_zero]

/-- Truncating, appending, and truncating again is the same as truncating
the full sequence: only the most recent `n` elements ever matter. -/
theorem takeLast_takeLast_append (n : Nat) (xs ys : List α) :
    takeLast n (takeLast n xs ++ ys) = takeLast n (xs ++ ys) := by
  rw [takeLast_eq_reverse_take, takeLast_eq_reverse_take n xs,
      takeLast_eq_reverse_take n (xs ++ ys)]
  congr 1
  rw [List.reverse_append, List.reverse_reverse, List.reverse_append]
  rw [List.take_append_eq_append_take, List.take_append_eq_append_take]
  congr 1
  rw [List.take_take]
  congr 1
  exact Nat.min_eq_left (Nat.sub_le _ _)

theorem sessionTruncate_eq_takeLast (h : List ChatMessage) :
    sessionTruncate h = takeLast 20 h := by
  unfold sessionTruncate takeLast
  by_cases hl : h.length > 20
  · simp [hl]
  · rw [if_neg hl]
    push_neg at hl
    rw [Nat.sub_eq_zero_of_le hl, List.drop_zero]

theorem sessionAfterRequest_eq_takeLast (sessionHistory : List ChatMessage)
    (message answer : String) (t1 t2 : Nat) :
    sessionAfterRequest sessionHistory message answer t1 t2
      = takeLast 20 (sessionHistory ++ [⟨"user", message, t1⟩, ⟨"assistant", answer, t2⟩]) := by
  unfold sessionAfterRequest
  exact sessionTruncate_eq_takeLast _

theorem runManualSession_from (reqs : List Exchange) :
    ∀ acc, acc.length ≤ 20 →
      reqs.foldl (fun acc r => sessionAfterRequest acc r.message r.answer r.t1 r.t2) acc
        = takeLast 20 (acc ++ sessionTurns reqs) := by
  induction reqs with
  | nil =>
    intro acc hacc
    simp [sessionTurns, takeLast_of_length_le 20 acc hacc]
  | cons r rest ih =>
    intro acc _
    simp only [List.foldl_cons]
    rw [sessionAfterRequest_eq_takeLast]
    rw [ih _ (takeLast_length_le 20 _)]
    rw [takeLast_takeLast_append]
    simp [sessionTurns, List.append_assoc]

/-! ### History filtering (server, `createBackendHandler`, `processedHistory`)

A client-supplied history entry's `content` may arrive as a plain string,
as a segmented array (segments being strings or objects carrying a `text`
field), or as a nullish value.  The backend handler drops entries with a
nullish/empty content or an invalid role, flattens segmented content with
single-space separators, and trims. -/

/-- One segment of a segmented content value: either a plain string, or an
object whose `text` field may be absent. -/
inductive ContentPart
  | pstr (s : String)
  | pobj (text : Option String)
  deriving DecidableEq

/-- A history entry's content as received over the wire. -/
inductive Content
  | nullish
  | str (s : String)
  | arr (parts : List ContentPart)
  deriving DecidableEq

/-- A raw history entry from the request body. -/
structure RawMsg where
  role : String
  content : Content
  deriving DecidableEq

/-- A message in provider wire shape: role plus flat string content. -/
structure PMsg where
  role : String
  content : String
  deriving DecidableEq

/-- `typeof c === 'string' ? c : (c?.text || '')` for one segment. -/
def partText : ContentPart → String
  | .pstr s => s
  | .pobj (some s) => s
  | .pobj none => ""

/-- The `contentStr` computation: a segmented array is flattened by
joining its segments' texts with single spaces; a string passes through
`String(...)` unchanged; a nullish value would stringify to "null" (that
branch is unreachable past the truthiness filter). -/
def flattenContent : Content → String
  | .arr parts => String.intercalate " " (parts.map partText)
  | .str s => s
  | .nullish => "null"

/-- JS truthiness of `msg.content` (`!msg.content` drops nullish values
and empty strings; any array is truthy). -/
def contentTruthy : Content → Bool
  | .nullish => false
  | .str s => s != ""
  | .arr _ => true

/-- The allowed roles: user, assistant, system. -/
def validRole (r : String) : Bool := r = "user" || r = "assistant" || r = "system"

/-- The backend handler's history filter predicate, in source order:
content truthy, role valid, flattened content non-empty after trimming. -/
def keepEntry (m : RawMsg) : Bool :=
  contentTruthy m.content && validRole m.role && jsTrim (flattenContent m.content) != ""

/-- `processedHistory`: filter, then map each entry to its role and its
flattened, trimmed string content. -/
def processHistory (h : List RawMsg) : List PMsg :=
  (h.filter keepEntry).map (fun m => ⟨m.role, jsTrim (flattenContent m.content)⟩)

/-- Re-ingesting an already-processed entry as a raw history entry: a
plain string is a plain-string content. -/
def pmsgToRaw (p : PMsg) : RawMsg := ⟨p.role, .str p.content⟩

theorem keepEntry_processed (m : RawMsg) (hm : keepEntry m = true) :
    keepEntry (pmsgToRaw ⟨m.role, jsTrim (flattenContent m.content)⟩) = true := by
  have h3 : jsTrim (flattenContent m.content) != "" := by
    simp only [keepEntry, Bool.and_eq_true] at hm
    exact hm.2
  have h2 : validRole m.role = true := by
    simp only [keepEntry, Bool.and_eq_true] at hm
    exact hm.1.2
  simp only [keepEntry, pmsgToRaw, contentTruthy, flattenContent, Bool.and_eq_true]
  refine ⟨⟨h3, h2⟩, ?_⟩
  rw [jsTrim_idem]
  exact h3

theorem processHistory_map_fixed (m : RawMsg) :
    jsTrim (flattenContent (Content.str (jsTrim (flattenContent m.content))))
      = jsTrim (flattenContent m.content) := by
  simp only [flattenContent]
  exact jsTrim_idem _

/-- C8: the history-filtering function (which drops entries with
empty/whitespace-only content or a role outside user/assistant/system, and
flattens segmented content to a trimmed string) is idempotent: applying it
to its own output (fed back in as raw history entries) yields the same
sequence, for every input history. -/
theorem processHistory_idempotent (h : List RawMsg) :
    processHistory ((processHistory h).map pmsgToRaw) = processHistory h := by
  induction h with
  | nil => rfl
  | cons m t ih =>
    by_cases hk : keepEntry m = true
    · simp only [processHistory, List.filter_cons, hk, if_pos, List.map_cons]
      have hk2 := keepEntry_processed m hk
      simp only [pmsgToRaw] at hk2 ⊢
      simp only [List.filter_cons, hk2, if_pos, List.map_cons]
      rw [processHistory_map_fixed m]
      have ih2 := ih
      simp only [processHistory] at ih2
      rw [ih2]
    · have hk' : keepEntry m = false := by simpa using hk
      simp only [processHistory, List.filter_cons, hk']
      have ih2 := ih
      simp only [processHistory] at ih2
      simpa using ih2

/-! ### Document retrieval and context extraction

`supermemory.search.documents(...)` is an external call; its outcome is an
`Except JsError SearchResultShape` parameter.  A resolved call either
carries an array `results` field or is malformed (any other shape). -/

/-- A JS exception value: `message` and `status` may each be absent. -/
structure JsError where
  message : Option String
  status : Option Nat
  deriving DecidableEq

/-- A `Response.json({error}, {status})` error reply. -/
structure ErrResponse where
  status : Nat
  error : String
  deriving DecidableEq

/-- One retrieved document, with the fields the extractor inspects.
`content` is `some s` when `typeof doc.content === 'string'`; `chunks` is
`some l` when `Array.isArray(doc.chunks)`, each element being the chunk's
`content` when that is a string. -/
structure SearchDoc where
  content : Option String
  summary : Option String
  metaSummary : Option String
  metaDescription : Option String
  chunks : Option (List (Option String))
  deriving DecidableEq

/-- The shape of a resolved search call. -/
inductive SearchResultShape
  | withResults (docs : List SearchDoc)
  | malformed
  deriving DecidableEq

/-- `Array.isArray(docResults?.results) ? docResults.results : []`. -/
def documentsOf : SearchResultShape → List SearchDoc
  | .withResults docs => docs
  | .malformed => []

/-- `metadata.summary ?? metadata.description` (nullish coalescing). -/
def metaValue (d : SearchDoc) : String :=
  match d.metaSummary with
  | some s => s
  | none => d.metaDescription.getD ""

/-- The per-document segment extraction, in source order: string content,
truthy summary, metadata summary/description, string chunk contents;
then `.filter(Boolean)`. -/
def docSegments (d : SearchDoc) : List String :=
  let s0 : List String := match d.content with
    | some c => [c]
    | none => []
  let s1 : List String := if optTruthy d.summary then [d.summary.getD ""] else []
  let s2 : List String :=
    if optTruthy d.metaSummary || optTruthy d.metaDescription then [metaValue d] else []
  let s3 : List String := match d.chunks with
    | some cs => cs.filterMap id
    | none => []
  (s0 ++ s1 ++ s2 ++ s3).filter (fun s => s != "")

/-- Flatten all documents' segments, drop empties again, and join with the
fixed separator. -/
def extractContext (docs : List SearchDoc) : String :=
  String.intercalate "\n\n---\n\n" (((docs.map docSegments).flatten).filter (fun s => s != ""))

/-- The contextual framing when retrieval found something. -/
def contextFraming (context : String) : String :=
  "Here is relevant information from the portfolio:\n\n" ++ context
    ++ "\n\nNow answer the user\x27s question."

/-- The fallback framing when the context string is empty. -/
def fallbackFraming : String :=
  "No specific context found. Answer based on general knowledge if appropriate."

/-- `context ? ... : ...` on the joined context string. -/
def contextPromptOf (context : String) : String :=
  if context != "" then contextFraming context else fallbackFraming

/-- The rewritten current user turn: framing, blank line, `Question:`,
and the raw message. -/
def userTurnContent (contextPrompt message : String) : String :=
  contextPrompt ++ "\n\nQuestion: " ++ message

/-! ### Manual RAG handler pipeline (`createManualRAGHandler.POST`)

The phase from request validation through message assembly, ending at the
provider generation call.  A search call that throws propagates to the
handler's catch-all, which replies 500 with the error's message. -/

/-- `error.message || 'Internal server error'` at status 500 (the Manual
RAG catch-all). -/
def manualCatch (e : JsError) : ErrResponse :=
  ⟨500, jsOrStr e.message "Internal server error"⟩

/-- The messages the Manual RAG handler sends to generation: the session
history as-is, then the rewritten current user turn. -/
def manualMessages (sessionHistory : List ChatMessage) (shape : SearchResultShape)
    (message : String) : List PMsg :=
  sessionHistory.map (fun m => ⟨m.role, m.content⟩)
    ++ [⟨"user", userTurnContent (contextPromptOf (extractContext (documentsOf shape))) message⟩]

/-- The Manual RAG request pipeline up to the generation call: validate,
search, extract, assemble.  Returns the assembled messages, or the error
response produced before generation is reached. -/
def manualRagToGeneration (message sessionId : String) (sessionHistory : List ChatMessage)
    (search : Except JsError SearchResultShape) : Except ErrResponse (List PMsg) :=
  if message = "" || sessionId = "" then .error ⟨400, "Missing message or sessionId"⟩
  else
    match search with
    | .error e => .error (manualCatch e)
    | .ok shape => .ok (manualMessages sessionHistory shape message)

/-! ### Memory Router handler (`createPortfolioHandler`)

Configuration, construction-time validation, the proxy headers, request
validation, message assembly, and the buffered (non-streaming) response
phase. -/

/-- The `MemoryRouterConfig` options object.  `llmProvider` is a plain
string at runtime; optional fields are `Option`.  (`temperature` and
`maxTokens` are unused by the properties verified here and are omitted.) -/
structure MemoryRouterConfig where
  llmProvider : String
  llmApiKey : String
  llmModel : Option String
  supermemoryApiKey : String
  supermemoryContainer : String
  systemPrompt : Option String
  streaming : Option Bool
  openRouterReferer : Option String
  openRouterTitle : Option String
  deriving DecidableEq

/-- The `MEMORY_ROUTER_URLS` table, indexed by provider selector. -/
def memoryRouterURL (provider : String) : Option String :=
  if provider = "anthropic" then some "https://api.supermemory.ai/v3/https://api.anthropic.com/v1"
  else if provider = "openai" then some "https://api.supermemory.ai/v3/https://api.openai.com/v1"
  else if provider = "groq" then some "https://api.supermemory.ai/v3/https://api.groq.com/openai/v1"
  else if provider = "openrouter" then some "https://api.supermemory.ai/v3/https://openrouter.ai/api/v1"
  else if provider = "google" then
    some "https://api.supermemory.ai/v3/https://generativelanguage.googleapis.com/v1beta"
  else none

/-- `getDefaultModel` (identical in both multi-provider handler files). -/
def getDefaultModel (provider : String) : String :=
  if provider = "anthropic" then "claude-sonnet-4-20250514"
  else if provider = "openai" then "gpt-4o"
  else if provider = "groq" then "llama-3.3-70b-versatile"
  else if provider = "openrouter" then "anthropic/claude-3.5-sonnet"
  else if provider = "google" then "gemini-1.5-flash"
  else "claude-sonnet-4-20250514"

/-- `createPortfolioHandler` construction: required keys first, then the
base-URL lookup; an unknown provider fails construction with a message
naming the value and the supported set.  Returns the resolved base URL. -/
def createPortfolioHandlerInit (config : MemoryRouterConfig) : Except String String :=
  if config.llmApiKey = "" then .error "LLM API key is required"
  else if config.supermemoryApiKey = "" then .error "Supermemory API key is required"
  else if config.supermemoryContainer = "" then .error "Supermemory container is required"
  else
    match memoryRouterURL config.llmProvider with
    | none => .error ("Unsupported LLM provider: " ++ config.llmProvider
        ++ ". Supported: anthropic, openai, groq, openrouter, google")
    | some baseURL => .ok baseURL

/-- The headers `getProviderModel` attaches for the Memory Router proxy,
exactly as written in the source: the user-id header carries the literal
text of the expression, not its value. -/
def memoryRouterHeaders (config : MemoryRouterConfig) : List (String × String) :=
  [("x-supermemory-api-key", config.supermemoryApiKey),
   ("x-sm-user-id", "config.supermemoryContainer")]

/-- The Memory Router handler's history filter and assembly: keep entries
with truthy, non-whitespace content, trim them, and append the trimmed
current user turn. -/
def portfolioMessages (history : List ChatMessage) (message : String) : List PMsg :=
  (history.filter (fun m => m.content != "" && jsTrim m.content != "")).map
      (fun m => ⟨m.role, jsTrim m.content⟩)
    ++ [⟨"user", jsTrim message⟩]

/-- The Memory Router request pipeline up to the generation call.  The
assembly does not depend on `config.llmProvider`; the parameter is kept to
mirror the handler closure. -/
def portfolioToGeneration (_config : MemoryRouterConfig) (message sessionId : String)
    (history : List ChatMessage) : Except ErrResponse (List PMsg) :=
  if message = "" || sessionId = "" then .error ⟨400, "Missing message or sessionId"⟩
  else if jsTrim message = "" then .error ⟨400, "Message cannot be empty"⟩
  else .ok (portfolioMessages history message)

/-- A buffered `Response.json` chat reply. -/
structure BufferedResponse where
  status : Nat
  answer : String
  sessionId : String
  error : Option String
  deriving DecidableEq

/-- The diagnostic answer returned when the buffered generation yields no
text. -/
def emptyResponseDiagnostic : String :=
  "I apologize, but I\x27m having trouble generating a response. This might be because:\n\n1. The memory container is empty (no documents uploaded)\n2. There\x27s an issue with the Memory Router connection\n3. The API configuration needs to be checked\n\nPlease check the server logs for more details."

/-- The Memory Router handler's non-streaming response phase: an empty or
whitespace-only generated text yields a 200 reply carrying the diagnostic
answer and an error flag; otherwise the text is the answer. -/
def portfolioBufferedResponse (fullText sessionId : String) : BufferedResponse :=
  if fullText = "" || jsTrim fullText = "" then
    ⟨200, emptyResponseDiagnostic, sessionId, some "Empty response from LLM"⟩
  else ⟨200, fullText, sessionId, none⟩

/-! ### Read-only backend handler (`createBackendHandler`) -/

/-- `createBackendHandler` construction: only the three required keys are
checked; the provider selector is not validated here.  Returns the
resolved model name. -/
def createBackendHandlerInit (config : MemoryRouterConfig) : Except String String :=
  if config.llmApiKey = "" then .error "LLM API key is required"
  else if config.supermemoryApiKey = "" then .error "Supermemory API key is required"
  else if config.supermemoryContainer = "" then .error "Supermemory container is required"
  else .ok (jsOrStr config.llmModel (getDefaultModel config.llmProvider))

/-- `getBaseURL` for the direct-provider clients. -/
def getBaseURL (provider : String) : Option String :=
  if provider = "groq" then some "https://api.groq.com/openai/v1"
  else if provider = "openrouter" then some "https://openrouter.ai/api/v1"
  else none

/-- A provider client configuration as built by the backend handler's
`getProviderModel` (base URL override and extra headers). -/
structure ProviderClient where
  baseURL : Option String
  headers : List (String × String)
  deriving DecidableEq

/-- The backend handler's `getProviderModel`: called per request, it
throws on an unsupported provider — the error names the value but not the
supported set. -/
def backendGetProviderModel (config : MemoryRouterConfig) : Except String ProviderClient :=
  if config.llmProvider = "anthropic" then .ok ⟨none, []⟩
  else if config.llmProvider = "openai" then .ok ⟨getBaseURL "openai", []⟩
  else if config.llmProvider = "groq" then .ok ⟨getBaseURL "groq", []⟩
  else if config.llmProvider = "openrouter" then
    .ok ⟨some "https://openrouter.ai/api/v1",
      [("HTTP-Referer", jsOrStr config.openRouterReferer "https://portfolio-sdk.com"),
       ("X-Title", jsOrStr config.openRouterTitle "Portfolio Chat")]⟩
  else if config.llmProvider = "google" then .ok ⟨none, []⟩
  else .error ("Unsupported provider: " ++ config.llmProvider)

/-- The system slot of the OpenRouter rewrite: the first system-role
entry, trimmed, kept only when non-empty after trimming. -/
def orSystemPart (messages : List PMsg) : List PMsg :=
  match messages.find? (fun m => m.role = "system") with
  | some m => if jsTrim m.content != "" then [⟨"system", jsTrim m.content⟩] else []
  | none => []

/-- The user slot of the OpenRouter rewrite: the last user-role entry
(`messages.filter(role === 'user').slice(-1)[0]`), trimmed, kept only when
non-empty after trimming. -/
def orUserPart (messages : List PMsg) : List PMsg :=
  match (messages.filter (fun m => m.role = "user")).getLast? with
  | some m => if jsTrim m.content != "" then [⟨"user", jsTrim m.content⟩] else []
  | none => []

/-- The backend handler's OpenRouter rewrite: keep only the first
system-role entry and the last user-role entry, dropping everything else
(`messages.splice(0, messages.length, ...simplifiedMessages)`). -/
def openrouterSimplify (messages : List PMsg) : List PMsg :=
  orSystemPart messages ++ orUserPart messages

/-- The backend handler's message assembly: processed history plus the
rewritten current user turn, then the OpenRouter rewrite when that
provider is selected. -/
def backendMessages (config : MemoryRouterConfig) (history : List RawMsg)
    (message context : String) : List PMsg :=
  let messages := processHistory history
    ++ [⟨"user", userTurnContent (contextPromptOf context) message⟩]
  if config.llmProvider = "openrouter" then openrouterSimplify messages else messages

/-- The backend handler's catch-all: `error.message || 'Internal server
error'`, specialised for 401, at `error.status || 500`. -/
def backendCatch (e : JsError) : ErrResponse :=
  let base := jsOrStr e.message "Internal server error"
  let msg := if e.status = some 401 then
      "Invalid API key. Please check your LLM or Supermemory API key."
    else base
  ⟨(match e.status with | some n => if n = 0 then 500 else n | none => 500), msg⟩

/-- The backend request pipeline up to the generation call: validate
(including the trimmed-empty check), search, extract, assemble.  A search
call that throws propagates to the catch-all. -/
def backendToGeneration (config : MemoryRouterConfig) (message sessionId : String)
    (history : List RawMsg) (search : Except JsError SearchResultShape) :
    Except ErrResponse (List PMsg) :=
  if message = "" || sessionId = "" then .error ⟨400, "Missing message or sessionId"⟩
  else if jsTrim message = "" then .error ⟨400, "Message cannot be empty"⟩
  else
    match search with
    | .error e => .error (backendCatch e)
    | .ok shape => .ok (backendMessages config history message (extractContext (documentsOf shape)))

/-- The backend handler's non-streaming response phase: the generated text
is returned as the answer with no emptiness check and no error flag. -/
def backendBufferedResponse (fullText sessionId : String) : BufferedResponse :=
  ⟨200, fullText, sessionId, none⟩

/-! ### `uploadToSupermemory`

The whole body sits in one `try`; the `catch` converts any thrown error
into `{success: false, error: error.message || 'Upload failed'}`.  The two
external calls are passed in as `Except JsError` outcomes. -/

/-- The options record; `file` is `true` when a (truthy) File/Buffer was
supplied. -/
structure UploadOptions where
  file : Bool
  text : Option String
  title : String
  type : Option String
  container : Option String
  deriving DecidableEq

/-- The SDK `memories.uploadFile` response: `response?.id` and
`response?.document?.id`. -/
structure UploadFileResponse where
  id : Option String
  documentId : Option String
  deriving DecidableEq

/-- The parsed JSON of the raw add-API reply: `data?.memoryId`, `data?.id`. -/
structure AddJson where
  memoryId : Option String
  id : Option String
  deriving DecidableEq

/-- A `fetch` response: `ok`, `status`, and the (possibly rejecting)
`json()` body. -/
structure FetchResponse where
  ok : Bool
  status : Nat
  json : Except JsError AddJson

/-- The resolved value of `uploadToSupermemory`. -/
structure UploadResult where
  success : Bool
  documentId : Option String
  error : Option String
  deriving DecidableEq

/-- `error.message || 'Upload failed'` in the catch clause. -/
def uploadCatchMessage (e : JsError) : String := jsOrStr e.message "Upload failed"

/-- `uploadToSupermemory(apiKey, options)` as a total function of the
options and the outcomes of its two possible external calls. -/
def uploadToSupermemory (options : UploadOptions)
    (uploadFileCall : Except JsError UploadFileResponse)
    (fetchAddCall : Except JsError FetchResponse) : UploadResult :=
  if options.file then
    match uploadFileCall with
    | .error e => ⟨false, none, some (uploadCatchMessage e)⟩
    | .ok resp => ⟨true, jsOrOpt resp.id resp.documentId, none⟩
  else if optTruthy options.text then
    match fetchAddCall with
    | .error e => ⟨false, none, some (uploadCatchMessage e)⟩
    | .ok res =>
      if !res.ok then ⟨false, none, some ("API error: " ++ toString res.status)⟩
      else
        match res.json with
        | .error e => ⟨false, none, some (uploadCatchMessage e)⟩
        | .ok data => ⟨true, jsOrOpt data.memoryId data.id, none⟩
  else ⟨false, none, some "Either file or text must be provided"⟩

/-! ### Helper lemmas and fixtures for the claim theorems -/

theorem append_ne_empty_left (a b : String) (h : a ≠ "") : a ++ b ≠ "" := by
  intro hab
  apply h
  have hdata := congrArg String.data hab
  rw [str_data_append] at hdata
  have ha := (List.append_eq_nil.mp hdata).1
  cases a with
  | mk l => cases ha; rfl

theorem uploadCatchMessage_ne_empty (e : JsError) : uploadCatchMessage e ≠ "" := by
  unfold uploadCatchMessage jsOrStr
  cases e.message with
  | none => decide
  | some s =>
    by_cases h : s = ""
    · simp [h]
    · simp [h]

/-- A shared well-formed configuration (anthropic provider). -/
def anthropicConfig : MemoryRouterConfig :=
  ⟨"anthropic", "llm-key", none, "sm-key", "portfolio", none, none, none, none⟩

/-- A configuration selecting the aggregator provider. -/
def openrouterConfig : MemoryRouterConfig :=
  ⟨"openrouter", "llm-key", none, "sm-key", "portfolio", none, none, none, none⟩

/-- A configuration whose provider selector is outside the supported set. -/
def mistralConfig : MemoryRouterConfig :=
  ⟨"mistral", "llm-key", none, "sm-key", "portfolio", none, none, none, none⟩

/-! ### C2 — the x-sm-user-id header -/

/-- C2: the claim says the `x-sm-user-id` header attached by the Memory
Router handler always equals the configured `supermemoryContainer` value,
never a constant.  The source attaches the literal string
`"config.supermemoryContainer"` instead of the configuration value: with
the container configured as "portfolio", the header value is the literal
and differs from the configuration value. -/
theorem xSmUserId_is_literal :
    (memoryRouterHeaders anthropicConfig).lookup "x-sm-user-id"
        = some "config.supermemoryContainer" ∧
    (memoryRouterHeaders anthropicConfig).lookup "x-sm-user-id"
        ≠ some anthropicConfig.supermemoryContainer := by
  constructor
  · decide
  · decide

/-! ### C4 — empty buffered generation -/

/-- C4 counterexample: in the read-only backend handler the buffered
(non-streaming) path performs no emptiness check: an empty generated text
is returned as an empty answer with no error flag, so the claim fails for
that multi-provider variant. -/
theorem backend_empty_buffered_unflagged :
    (backendBufferedResponse "" "s1").answer = "" ∧
    (backendBufferedResponse "" "s1").error = none :=
  ⟨rfl, rfl⟩

/-- C4 (amended): in the proxied (Memory Router) handler, a buffered
generation whose text is empty or whitespace-only yields a 200 response
whose answer is the non-empty diagnostic string and whose error field is
set; the read-only backend handler instead returns the empty text as the
answer with no error flag. -/
theorem portfolio_empty_buffered_diagnostic (fullText sessionId : String)
    (h : jsTrim fullText = "") :
    portfolioBufferedResponse fullText sessionId
      = ⟨200, emptyResponseDiagnostic, sessionId, some "Empty response from LLM"⟩ ∧
    emptyResponseDiagnostic ≠ "" ∧
    backendBufferedResponse fullText sessionId = ⟨200, fullText, sessionId, none⟩ := by
  refine ⟨?_, by decide, rfl⟩
  unfold portfolioBufferedResponse
  simp [h]

theorem portfolio_empty_buffered_diagnostic_witness :
    portfolioBufferedResponse " " "s1"
      = ⟨200, emptyResponseDiagnostic, "s1", some "Empty response from LLM"⟩ :=
  (portfolio_empty_buffered_diagnostic " " "s1" (by decide)).1

/-! ### C6 — session truncation -/

/-- C6: for every sequence of requests appended to one Manual RAG session
(starting fresh), the stored history length never exceeds 20; the stored
value is always the 20 most recent turns in chronological order; and once
more than 20 turns have been appended its length is exactly 20. -/
theorem manual_session_truncation (reqs : List Exchange) :
    (runManualSession reqs).length ≤ 20 ∧
    runManualSession reqs = takeLast 20 (sessionTurns reqs) ∧
    ((sessionTurns reqs).length > 20 → (runManualSession reqs).length = 20) := by
  have hmain : runManualSession reqs = takeLast 20 (sessionTurns reqs) := by
    unfold runManualSession
    rw [runManualSession_from reqs [] (by simp)]
    simp
  refine ⟨?_, hmain, ?_⟩
  · rw [hmain]
    exact takeLast_length_le 20 _
  · intro h
    rw [hmain]
    unfold takeLast
    rw [List.length_drop]
    omega

/-- Eleven exchanges, contributing 22 turns in total. -/
def elevenExchanges : List Exchange :=
  (List.range 11).map (fun i => ⟨"q", "a", 2 * i, 2 * i + 1⟩)

theorem manual_session_truncation_witness :
    (sessionTurns elevenExchanges).length > 20 ∧
    (runManualSession elevenExchanges).length = 20 :=
  ⟨by decide, (manual_session_truncation elevenExchanges).2.2 (by decide)⟩

/-! ### C7 — streaming accumulation -/

/-- C7: for every finite sequence of stream chunks received by the chat
widget, the sequence of rendered states of the in-progress assistant
message is the sequence of prefixes obtained by appending each chunk in
arrival order, the final rendered state is the concatenation of all
chunks, and the spec's example instance holds. -/
theorem streaming_accumulation (chunks : List String) :
    renderedStates chunks = specCumulativeStates chunks ∧
    (renderedStates chunks).getLast?
      = (if chunks.isEmpty then none else some (concatChunks chunks)) ∧
    renderedStates ["Hel", "lo wo", "rld"] = ["Hel", "Hello wo", "Hello world"] := by
  refine ⟨?_, ?_, by decide⟩
  · rw [renderedStates, streamReadLoop_eq_map]
    calc (specCumulativeStates chunks).map (fun s => "" ++ s)
        = (specCumulativeStates chunks).map id := by
          apply List.map_congr_left
          intro s _
          exact str_empty_append s
      _ = specCumulativeStates chunks := List.map_id _
  · cases chunks with
    | nil => rfl
    | cons c rest =>
      rw [renderedStates, streamReadLoop_getLast (c :: rest) "" (by simp)]
      simp [str_empty_append]

/-! ### C10 — uploadToSupermemory totality -/

/-- C10: `uploadToSupermemory` always resolves to a success/failure record
and never throws: with neither file nor (truthy) text it resolves to the
fixed "Either file or text must be provided" failure; an exception from
either external call resolves to a failure carrying the exception's
message (or "Upload failed"); and every outcome is either a success with
no error or a failure with a non-empty error message. -/
theorem uploadToSupermemory_total (options : UploadOptions)
    (uploadFileCall : Except JsError UploadFileResponse)
    (fetchAddCall : Except JsError FetchResponse) :
    (options.file = false → optTruthy options.text = false →
      uploadToSupermemory options uploadFileCall fetchAddCall
        = ⟨false, none, some "Either file or text must be provided"⟩) ∧
    (∀ e, options.file = true → uploadFileCall = .error e →
      uploadToSupermemory options uploadFileCall fetchAddCall
        = ⟨false, none, some (uploadCatchMessage e)⟩) ∧
    (∀ e, options.file = false → optTruthy options.text = true → fetchAddCall = .error e →
      uploadToSupermemory options uploadFileCall fetchAddCall
        = ⟨false, none, some (uploadCatchMessage e)⟩) ∧
    (((uploadToSupermemory options uploadFileCall fetchAddCall).success = true ∧
      (uploadToSupermemory options uploadFileCall fetchAddCall).error = none) ∨
     ((uploadToSupermemory options uploadFileCall fetchAddCall).success = false ∧
      ∃ m, (uploadToSupermemory options uploadFileCall fetchAddCall).error = some m ∧ m ≠ "")) := by
  refine ⟨?_, ?_, ?_, ?_⟩
  · intro hf ht
    simp [uploadToSupermemory, hf, ht]
  · intro e hf he
    simp [uploadToSupermemory, hf, he]
  · intro e hf ht he
    simp [uploadToSupermemory, hf, ht, he]
  · cases hf : options.file with
    | true =>
      cases uploadFileCall with
      | error e =>
        right
        exact ⟨by simp [uploadToSupermemory, hf], uploadCatchMessage e,
          by simp [uploadToSupermemory, hf], uploadCatchMessage_ne_empty e⟩
      | ok r =>
        left
        constructor <;> simp [uploadToSupermemory, hf]
    | false =>
      cases ht : optTruthy options.text with
      | true =>
        cases fetchAddCall with
        | error e =>
          right
          exact ⟨by simp [uploadToSupermemory, hf, ht], uploadCatchMessage e,
            by simp [uploadToSupermemory, hf, ht], uploadCatchMessage_ne_empty e⟩
        | ok res =>
          cases hok : res.ok with
          | true =>
            cases hjson : res.json with
            | error e =>
              right
              exact ⟨by simp [uploadToSupermemory, hf, ht, hok, hjson], uploadCatchMessage e,
                by simp [uploadToSupermemory, hf, ht, hok, hjson], uploadCatchMessage_ne_empty e⟩
            | ok data =>
              left
              constructor <;> simp [uploadToSupermemory, hf, ht, hok, hjson]
          | false =>
            right
            refine ⟨by simp [uploadToSupermemory, hf, ht, hok],
              "API error: " ++ toString res.status,
              by simp [uploadToSupermemory, hf, ht, hok],
              append_ne_empty_left _ _ (by decide)⟩
      | false =>
        right
        exact ⟨by simp [uploadToSupermemory, hf, ht],
          "Either file or text must be provided",
          by simp [uploadToSupermemory, hf, ht], by decide⟩

theorem uploadToSupermemory_total_witness :
    uploadToSupermemory ⟨false, none, "t", none, none⟩
        (Except.ok ⟨none, none⟩) (Except.ok ⟨true, 200, Except.ok ⟨none, none⟩⟩)
      = ⟨false, none, some "Either file or text must be provided"⟩ ∧
    uploadToSupermemory ⟨true, none, "t", none, none⟩
        (Except.error ⟨some "boom", none⟩) (Except.ok ⟨true, 200, Except.ok ⟨none, none⟩⟩)
      = ⟨false, none, some (uploadCatchMessage ⟨some "boom", none⟩)⟩ :=
  ⟨(uploadToSupermemory_total ⟨false, none, "t", none, none⟩
      (Except.ok ⟨none, none⟩) (Except.ok ⟨true, 200, Except.ok ⟨none, none⟩⟩)).1 rfl rfl,
   (uploadToSupermemory_total ⟨true, none, "t", none, none⟩
      (Except.error ⟨some "boom", none⟩)
      (Except.ok ⟨true, 200, Except.ok ⟨none, none⟩⟩)).2.1 ⟨some "boom", none⟩ rfl rfl⟩

/-! ### C1 — retrieval failure handling -/

/-- C1 counterexample: when the search call throws, the Manual RAG handler
does not proceed to generation with empty context — the exception reaches
the handler's catch-all and the request is answered with a 500 error
response carrying the exception's message. -/
theorem manual_search_throw_errors :
    manualRagToGeneration "What did you build?" "s1" []
        (Except.error ⟨some "network down", none⟩)
      = Except.error ⟨500, "network down"⟩ := by
  rfl

/-- C1 (amended): if the search call resolves to a malformed (non-array)
shape, both retrieval-performing handlers proceed to the generation step
with an empty context and the general-knowledge fallback framing in the
final user turn; if the search call throws, the handler instead returns
the error response produced by its catch-all. -/
theorem retrieval_failure_handling (config : MemoryRouterConfig)
    (message sessionId : String) (mHist : List ChatMessage) (bHist : List RawMsg)
    (e : JsError) (hm : message ≠ "") (hs : sessionId ≠ "")
    (htrim : jsTrim message ≠ "") (hor : config.llmProvider ≠ "openrouter") :
    manualRagToGeneration message sessionId mHist (Except.ok .malformed)
      = Except.ok (mHist.map (fun m => ⟨m.role, m.content⟩)
          ++ [⟨"user", userTurnContent fallbackFraming message⟩]) ∧
    backendToGeneration config message sessionId bHist (Except.ok .malformed)
      = Except.ok (processHistory bHist
          ++ [⟨"user", userTurnContent fallbackFraming message⟩]) ∧
    manualRagToGeneration message sessionId mHist (Except.error e)
      = Except.error (manualCatch e) ∧
    backendToGeneration config message sessionId bHist (Except.error e)
      = Except.error (backendCatch e) := by
  have hempty : contextPromptOf (extractContext (documentsOf .malformed)) = fallbackFraming := rfl
  refine ⟨?_, ?_, ?_, ?_⟩
  · simp [manualRagToGeneration, hm, hs, manualMessages, hempty]
  · simp [backendToGeneration, hm, hs, htrim, backendMessages, hor, hempty]
  · simp [manualRagToGeneration, hm, hs]
  · simp [backendToGeneration, hm, hs, htrim]

theorem retrieval_failure_handling_witness :
    manualRagToGeneration "Hi" "s1" [] (Except.ok .malformed)
      = Except.ok [⟨"user", userTurnContent fallbackFraming "Hi"⟩] :=
  (retrieval_failure_handling anthropicConfig "Hi" "s1" [] [] ⟨some "boom", none⟩
    (by decide) (by decide) (by decide) (by decide)).1

/-! ### C3 — empty-message validation -/

/-- C3 counterexample: a whitespace-only message is not rejected by the
Manual RAG handler — it is truthy, so validation passes and the request
proceeds through retrieval to the generation step instead of returning a
400 client error. -/
theorem manual_whitespace_not_rejected :
    manualRagToGeneration " " "s1" [] (Except.ok .malformed)
      = Except.ok [⟨"user", userTurnContent fallbackFraming " "⟩] := by
  rfl

/-- C3 (amended): the proxied and read-only backend handlers reject a
message that is empty after trimming with a 400 "Message cannot be empty"
error before retrieval or generation (the result is independent of the
search outcome); the Manual RAG handler checks only for a missing/empty
message, so a whitespace-only message proceeds to generation. -/
theorem empty_message_validation (config : MemoryRouterConfig)
    (message sessionId : String) (pHist : List ChatMessage) (bHist : List RawMsg)
    (mHist : List ChatMessage) (search : Except JsError SearchResultShape)
    (shape : SearchResultShape)
    (hm : message ≠ "") (hs : sessionId ≠ "") (htrim : jsTrim message = "") :
    portfolioToGeneration config message sessionId pHist
      = Except.error ⟨400, "Message cannot be empty"⟩ ∧
    backendToGeneration config message sessionId bHist search
      = Except.error ⟨400, "Message cannot be empty"⟩ ∧
    manualRagToGeneration message sessionId mHist (Except.ok shape)
      = Except.ok (manualMessages mHist shape message) := by
  refine ⟨?_, ?_, ?_⟩
  · simp [portfolioToGeneration, hm, hs, htrim]
  · simp [backendToGeneration, hm, hs, htrim]
  · simp [manualRagToGeneration, hm, hs]

theorem empty_message_validation_witness :
    portfolioToGeneration anthropicConfig " " "s1" []
      = Except.error ⟨400, "Message cannot be empty"⟩ ∧
    backendToGeneration anthropicConfig " " "s1" [] (Except.ok .malformed)
      = Except.error ⟨400, "Message cannot be empty"⟩ ∧
    manualRagToGeneration " " "s1" [⟨"user", "earlier", 1⟩] (Except.ok .malformed)
      = Except.ok (manualMessages [⟨"user", "earlier", 1⟩] .malformed " ") :=
  empty_message_validation anthropicConfig " " "s1" [] [] [⟨"user", "earlier", 1⟩]
    (Except.ok .malformed) .malformed (by decide) (by decide) (by decide)

/-! ### C5 — OpenRouter history dropping -/

theorem orSystemPart_role (msgs : List PMsg) : ∀ m ∈ orSystemPart msgs, m.role = "system" := by
  intro m hm
  unfold orSystemPart at hm
  cases hfind : msgs.find? (fun m => m.role = "system") with
  | none => rw [hfind] at hm; simp at hm
  | some x =>
    rw [hfind] at hm
    by_cases hx : jsTrim x.content != ""
    · simp [hx] at hm
      subst hm
      rfl
    · simp [hx] at hm

theorem orSystemPart_length (msgs : List PMsg) : (orSystemPart msgs).length ≤ 1 := by
  unfold orSystemPart
  cases msgs.find? (fun m => m.role = "system") with
  | none => simp
  | some x =>
    by_cases hx : jsTrim x.content != ""
    · simp [hx]
    · simp [hx]

theorem orUserPart_concat (pre : List PMsg) (c : String) (hc : jsTrim c ≠ "") :
    orUserPart (pre ++ [⟨"user", c⟩]) = [⟨"user", jsTrim c⟩] := by
  unfold orUserPart
  have hfil : (pre ++ [(⟨"user", c⟩ : PMsg)]).filter (fun m => m.role = "user")
      = pre.filter (fun m => m.role = "user") ++ [⟨"user", c⟩] := by
    rw [List.filter_append]
    simp
  rw [hfil, List.getLast?_concat]
  simp [hc]

/-- A 5-turn client history. -/
def fiveTurnHistory : List ChatMessage :=
  [⟨"user", "q1", 1⟩, ⟨"assistant", "a1", 2⟩, ⟨"user", "q2", 3⟩,
   ⟨"assistant", "a2", 4⟩, ⟨"user", "q3", 5⟩]

/-- C5 counterexample: the proxied (Memory Router) handler performs no
OpenRouter-specific rewrite: configured with the aggregator provider and
given a history of 5 prior turns, the assembled outgoing message list has
6 entries, so the at-most-2 bound fails for that handler. -/
theorem portfolio_openrouter_keeps_history :
    portfolioToGeneration openrouterConfig "What models?" "s1" fiveTurnHistory
      = Except.ok [⟨"user", "q1"⟩, ⟨"assistant", "a1"⟩, ⟨"user", "q2"⟩,
          ⟨"assistant", "a2"⟩, ⟨"user", "q3"⟩, ⟨"user", "What models?"⟩] ∧
    ¬ (portfolioMessages fiveTurnHistory "What models?").length ≤ 2 := by
  constructor
  · rfl
  · decide

/-- C5 (amended): it is the read-only backend handler that drops history
for OpenRouter: the assembled outgoing list has at most 2 entries, its
non-system part is exactly the single current user turn (the trimmed
context-augmented message), and every entry is a system or user entry — so
all user/assistant history entries are dropped (a system-role entry
supplied in the client history may still occupy the system slot).  The
proxied handler, by contrast, sends its full filtered history. -/
theorem backend_openrouter_stateless (config : MemoryRouterConfig)
    (history : List RawMsg) (message context : String)
    (hp : config.llmProvider = "openrouter") :
    (backendMessages config history message context).length ≤ 2 ∧
    (backendMessages config history message context).filter (fun m => m.role != "system")
      = [⟨"user", jsTrim (userTurnContent (contextPromptOf context) message)⟩] ∧
    (∀ m ∈ backendMessages config history message context,
      m.role = "system" ∨ m.role = "user") := by
  have hQ : jsTrim (userTurnContent (contextPromptOf context) message) ≠ "" := by
    apply jsTrim_ne_empty _ 'Q'
    · unfold userTurnContent
      rw [str_data_append, str_data_append]
      refine List.mem_append.mpr (Or.inl (List.mem_append.mpr (Or.inr ?_)))
      decide
    · decide
  have hbm : backendMessages config history message context
      = orSystemPart (processHistory history
            ++ [⟨"user", userTurnContent (contextPromptOf context) message⟩])
        ++ [⟨"user", jsTrim (userTurnContent (contextPromptOf context) message)⟩] := by
    unfold backendMessages
    rw [if_pos hp]
    unfold openrouterSimplify
    rw [orUserPart_concat _ _ hQ]
  refine ⟨?_, ?_, ?_⟩
  · rw [hbm, List.length_append]
    have hlen := orSystemPart_length (processHistory history
      ++ [⟨"user", userTurnContent (contextPromptOf context) message⟩])
    simp only [List.length_singleton]
    omega
  · rw [hbm, List.filter_append]
    have hsys : (orSystemPart (processHistory history
        ++ [⟨"user", userTurnContent (contextPromptOf context) message⟩])).filter
          (fun m => m.role != "system") = [] := by
      apply List.filter_eq_nil_iff.mpr
      intro a ha
      have hrole := orSystemPart_role _ a ha
      simp [hrole]
    rw [hsys]
    simp
  · intro m hm
    rw [hbm] at hm
    rcases List.mem_append.mp hm with h | h
    · exact Or.inl (orSystemPart_role _ m h)
    · right
      simp at h
      rw [h]

theorem backend_openrouter_stateless_witness :
    (backendMessages openrouterConfig [] "Hi" "").length ≤ 2 ∧
    (backendMessages openrouterConfig [] "Hi" "").filter (fun m => m.role != "system")
      = [⟨"user", jsTrim (userTurnContent (contextPromptOf "") "Hi")⟩] :=
  ⟨(backend_openrouter_stateless openrouterConfig [] "Hi" "" rfl).1,
   (backend_openrouter_stateless openrouterConfig [] "Hi" "" rfl).2.1⟩

/-! ### C9 — unsupported provider validation -/

/-- C9 counterexample: `createBackendHandler` does not validate the
provider selector at construction: with the unsupported selector
"mistral" (absent from the URL table), construction succeeds, returning
the fallback default model — the failure is deferred to request time. -/
theorem backend_construction_accepts_unknown_provider :
    memoryRouterURL "mistral" = none ∧
    createBackendHandlerInit mistralConfig = Except.ok "claude-sonnet-4-20250514" := by
  constructor
  · decide
  · rfl

/-- C9 (amended): for a configuration with the required keys present and a
provider selector outside the supported set, `createPortfolioHandler`
fails at construction with an error naming the offending value and the
supported set; `createBackendHandler` construction succeeds, and the
failure surfaces only when `getProviderModel` runs during request
handling, with an error naming the offending value (but not the supported
set). -/
theorem unsupported_provider_errors (config : MemoryRouterConfig)
    (h1 : config.llmApiKey ≠ "") (h2 : config.supermemoryApiKey ≠ "")
    (h3 : config.supermemoryContainer ≠ "")
    (hp : config.llmProvider ∉ (["anthropic", "openai", "groq", "openrouter", "google"] : List String)) :
    createPortfolioHandlerInit config
      = Except.error ("Unsupported LLM provider: " ++ config.llmProvider
          ++ ". Supported: anthropic, openai, groq, openrouter, google") ∧
    createBackendHandlerInit config
      = Except.ok (jsOrStr config.llmModel (getDefaultModel config.llmProvider)) ∧
    backendGetProviderModel config
      = Except.error ("Unsupported provider: " ++ config.llmProvider) := by
  simp only [List.mem_cons, List.mem_singleton, not_or] at hp
  obtain ⟨ha, hb, hc, hd, he⟩ := hp
  refine ⟨?_, ?_, ?_⟩
  · unfold createPortfolioHandlerInit memoryRouterURL
    simp [h1, h2, h3, ha, hb, hc, hd, he]
  · unfold createBackendHandlerInit
    simp [h1, h2, h3]
  · unfold backendGetProviderModel
    simp [ha, hb, hc, hd, he]

theorem unsupported_provider_errors_witness :
    createPortfolioHandlerInit mistralConfig
      = Except.error "Unsupported LLM provider: mistral. Supported: anthropic, openai, groq, openrouter, google" ∧
    backendGetProviderModel mistralConfig = Except.error "Unsupported provider: mistral" :=
  ⟨(unsupported_provider_errors mistralConfig (by decide) (by decide) (by decide) (by decide)).1,
   (unsupported_provider_errors mistralConfig (by decide) (by decide) (by decide) (by decide)).2.2⟩

end PortfolioSdk
